import Mathlib

/-!
Shallow embedding of `src/async_engine.py` (class `DataStreamEngine`):
a bounded-concurrency HTTP fetch pipeline.  Network and clock effects are
modelled as explicit parameters; Python exceptions are modelled with
`Except`; the result dicts become the `TaskResult` structure with
optional fields.
-/

namespace AsyncEngine

/-- A decoded JSON value, as returned by `response.json()`. -/
inductive Json where
  | null
  | bool (b : Bool)
  | num (n : Int)
  | str (s : String)
  | arr (xs : List Json)
  | obj (kvs : List (String × Json))

/-- The two `datetime.now()` renderings used by the engine:
`strftime("%Y-%m-%d %H:%M:%S")` and `isoformat()`. -/
structure Clock where
  fmt : String
  iso : String
deriving Repr, DecidableEq

/-- The dict built by `_process_logic`. -/
structure Payload where
  origin_count : Nat
  engine_tag : String
  processed_at : String
  cleaned : Bool
deriving Repr, DecidableEq

/-- The result dict returned by `execute_task`.  Keys absent from a given
branch of the Python code are `none` here. -/
structure TaskResult where
  status : String
  url : String
  payload : Option Payload
  timestamp : Option String
  error : Option String
deriving Repr, DecidableEq

/-- Outcome of reading and JSON-decoding the response body:
`response.json()` either returns a value or raises (malformed body). -/
inductive BodyDecode where
  | ok (j : Json)
  | fail (msg : String)

/-- Outcome of `session.get(url, timeout=15)`: either a response with a
status code and a body, or a raised exception (network error, timeout),
carrying its `str(e)` message. -/
inductive FetchOutcome where
  | resp (status : Nat) (body : BodyDecode)
  | exn (msg : String)

/-- The network environment: what the GET against each URL does. -/
def Net : Type := String → FetchOutcome

/-- Python `len()` applied to a decoded JSON value: defined on strings,
lists and dicts, raises `TypeError` on scalars. -/
def pyLen : Json → Except String Nat
  | .str s => .ok s.length
  | .arr xs => .ok xs.length
  | .obj kvs => .ok kvs.length
  | .null => .error "TypeError: object of type NoneType has no len()"
  | .bool _ => .error "TypeError: object of type bool has no len()"
  | .num _ => .error "TypeError: object of type int has no len()"

/-- `DataStreamEngine._process_logic`: builds the transformed payload;
raises (here: `.error`) when `len(data)` does. -/
def process_logic (clock : Clock) (data : Json) : Except String Payload :=
  match pyLen data with
  | .error e => .error e
  | .ok n =>
      .ok { origin_count := n
            engine_tag := "STF-V1-PRO"
            processed_at := clock.iso
            cleaned := true }

/-- The `try`-block body of `DataStreamEngine.execute_task`: issue the GET,
branch on the status code; any raised exception is an `.error`. -/
def execute_task_try (net : Net) (clock : Clock) (url : String) :
    Except String TaskResult :=
  match net url with
  | .exn msg => .error msg
  | .resp status_code body =>
      if status_code = 200 then
        match body with
        | .fail msg => .error msg
        | .ok data =>
            match process_logic clock data with
            | .error e => .error e
            | .ok processed_payload =>
                .ok { status := "SUCCESS"
                      url := url
                      payload := some processed_payload
                      timestamp := some clock.fmt
                      error := none }
      else
        .ok { status := "HTTP_" ++ toString status_code
              url := url
              payload := none
              timestamp := none
              error := none }

/-- The dict built by the `except Exception` handler. -/
def failed_result (url e : String) : TaskResult :=
  { status := "FAILED", url := url, payload := none, timestamp := none,
    error := some e }

/-- `DataStreamEngine.execute_task`: the `try` body with the
`except Exception` handler converting any raised exception into a
FAILED result. -/
def execute_task (net : Net) (clock : Clock) (url : String) : TaskResult :=
  match execute_task_try net clock url with
  | .ok r => r
  | .error e => failed_result url e

/-- What the caller of `execute_task` observes: an `.error` value would be
an exception propagating out of the coroutine. -/
def execute_task_caught (net : Net) (clock : Clock) (url : String) :
    Except String TaskResult :=
  match execute_task_try net clock url with
  | .ok r => .ok r
  | .error e => .ok (failed_result url e)

/-- Events on the concurrency gate performed by one `execute_task` call. -/
inductive GateEvent where
  | acquire
  | release
deriving Repr, DecidableEq

/-- The gate-event trace of one `execute_task` call: `async with
self.semaphore` acquires on entry and releases on exit of the `with`
block, both when the body returns normally and when it raises (the
raise is then turned into a FAILED result by the handler). -/
def execute_task_gate_trace (net : Net) (clock : Clock) (url : String) :
    List GateEvent :=
  GateEvent.acquire ::
    (match execute_task_try net clock url with
     | .ok _ => [GateEvent.release]
     | .error _ => [GateEvent.release])

/-! ### Pipeline: `run_pipeline` over `asyncio.gather`

`asyncio.gather(*tasks)` stores the i-th task's result in slot i of the
result list when that task completes; tasks complete in an arbitrary
order.  We model the completion order as an explicit list of task
indices and the fan-in as successive writes into an option-array. -/

/-- Fan-in of `asyncio.gather`: process completion events in the given
order; the event for task `i` writes that task's result into slot `i`. -/
def gatherFill (compute : Nat → TaskResult) (order : List Nat)
    (acc : List (Option TaskResult)) : List (Option TaskResult) :=
  order.foldl (fun a i => a.set i (some (compute i))) acc

/-- The result of the task spawned for the i-th target URL. -/
def taskOf (net : Net) (clock : Clock) (targets : List String) (i : Nat) :
    TaskResult :=
  execute_task net clock (targets.getD i "")

/-- `DataStreamEngine.run_pipeline`: one task per target, gathered.
`order` is the order in which the concurrent tasks complete. -/
def run_pipeline (net : Net) (clock : Clock) (targets : List String)
    (order : List Nat) : List (Option TaskResult) :=
  gatherFill (taskOf net clock targets) order
    (List.replicate targets.length none)

/-! ### The asyncio semaphore, as a transition system

`asyncio.Semaphore(C)` starts with `C` permits; `acquire` suspends until
a permit is available and takes one; `release` returns one.  Each task
is in one of three phases: waiting to acquire, holding the gate, done. -/

/-- Phase of one task with respect to the concurrency gate. -/
inductive Phase where
  | pending
  | holding
  | done
deriving Repr, DecidableEq

/-- Global scheduler state: available permits plus each task's phase. -/
structure SchedState where
  permits : Nat
  phases : List Phase
deriving Repr, DecidableEq

/-- One scheduler transition: task `i` acquires the semaphore (possible
only when a permit is free) or releases it. -/
inductive SchedStep : SchedState → SchedState → Prop where
  | acquire (s : SchedState) (i : Nat)
      (hi : s.phases[i]? = some Phase.pending) (hp : 0 < s.permits) :
      SchedStep s ⟨s.permits - 1, s.phases.set i Phase.holding⟩
  | release (s : SchedState) (i : Nat)
      (hi : s.phases[i]? = some Phase.holding) :
      SchedStep s ⟨s.permits + 1, s.phases.set i Phase.done⟩

/-- Initial state of a run with concurrency limit `C` and `n` tasks:
`asyncio.Semaphore(C)` full, every task not yet admitted. -/
def initState (C n : Nat) : SchedState :=
  ⟨C, List.replicate n Phase.pending⟩

/-- States reachable during a run with concurrency limit `C` and `n`
tasks. -/
def Reachable (C n : Nat) (s : SchedState) : Prop :=
  Relation.ReflTransGen SchedStep (initState C n) s

/-- Number of tasks currently past admission and not yet released. -/
def holdingCount (s : SchedState) : Nat :=
  s.phases.countP (fun p => p == Phase.holding)

/-! ### Engine construction

`DataStreamEngine.__init__(concurrency_limit=10)` builds
`asyncio.Semaphore(concurrency_limit)`; CPython's
`asyncio.Semaphore.__init__` raises `ValueError` when the value is
negative and accepts any value `≥ 0` unchanged. -/

/-- The semaphore object: its current value. -/
structure Semaphore where
  value : Nat
deriving Repr, DecidableEq

/-- `asyncio.Semaphore(value)`: rejects negative values, accepts `0`. -/
def mkSemaphore (value : Int) : Except String Semaphore :=
  if value < 0 then .error "Semaphore initial value must be >= 0"
  else .ok ⟨value.toNat⟩

/-- The engine object: its semaphore and `start_time = time.time()`. -/
structure DataStreamEngine where
  semaphore : Semaphore
  start_time : Int
deriving Repr, DecidableEq

/-- `DataStreamEngine.__init__` with an explicit `concurrency_limit`. -/
def engineInit (now : Int) (concurrency_limit : Int) :
    Except String DataStreamEngine :=
  match mkSemaphore concurrency_limit with
  | .error e => .error e
  | .ok s => .ok ⟨s, now⟩

/-- `DataStreamEngine()` with the default `concurrency_limit = 10`. -/
def engineInitDefault (now : Int) : Except String DataStreamEngine :=
  engineInit now 10

/-! ## Helper lemmas -/

/-- A status string of the HTTP-error branch never reads `SUCCESS`:
it starts with the character `H`. -/
theorem http_status_ne_success (c : Nat) :
    "HTTP_" ++ toString c ≠ "SUCCESS" := by
  intro h
  have h2 : ("HTTP_" ++ toString c).data = "SUCCESS".data := by rw [h]
  rw [String.data_append] at h2
  have e1 : "HTTP_".data = ['H', 'T', 'T', 'P', '_'] := rfl
  have e2 : "SUCCESS".data = ['S', 'U', 'C', 'C', 'E', 'S', 'S'] := rfl
  rw [e1, e2] at h2
  simp at h2

/-- A status string of the HTTP-error branch never reads `FAILED`. -/
theorem http_status_ne_failed (c : Nat) :
    "HTTP_" ++ toString c ≠ "FAILED" := by
  intro h
  have h2 : ("HTTP_" ++ toString c).data = "FAILED".data := by rw [h]
  rw [String.data_append] at h2
  have e1 : "HTTP_".data = ['H', 'T', 'T', 'P', '_'] := rfl
  have e2 : "FAILED".data = ['F', 'A', 'I', 'L', 'E', 'D'] := rfl
  rw [e1, e2] at h2
  simp at h2

/-- Exhaustive shape analysis of `execute_task`: every call lands in the
SUCCESS branch, the HTTP-error branch, or the exception handler. -/
theorem execute_task_cases (net : Net) (clock : Clock) (url : String) :
    (∃ p ts, execute_task net clock url =
        ⟨"SUCCESS", url, some p, some ts, none⟩) ∨
    (∃ code body, net url = FetchOutcome.resp code body ∧ code ≠ 200 ∧
        execute_task net clock url =
          ⟨"HTTP_" ++ toString code, url, none, none, none⟩) ∨
    (∃ e, execute_task net clock url = failed_result url e) := by
  cases h : net url with
  | exn msg =>
      right; right
      exact ⟨msg, by simp [execute_task, execute_task_try, h]⟩
  | resp code body =>
      by_cases hc : code = 200
      · subst hc
        cases body with
        | fail m =>
            right; right
            exact ⟨m, by simp [execute_task, execute_task_try, h]⟩
        | ok j =>
            cases hp : process_logic clock j with
            | error e =>
                right; right
                exact ⟨e, by simp [execute_task, execute_task_try, h, hp]⟩
            | ok p =>
                left
                exact ⟨p, clock.fmt,
                  by simp [execute_task, execute_task_try, h, hp]⟩
      · right; left
        exact ⟨code, body, rfl, hc,
          by simp [execute_task, execute_task_try, h, hc]⟩

/-! ## Claims about the task executor -/

/-- C4: for every network environment, clock and URL, `execute_task`
never propagates an exception to its caller: every failure path is
caught and converted into a returned `TaskResult`. -/
theorem execute_task_never_raises (net : Net) (clock : Clock)
    (url : String) :
    execute_task_caught net clock url =
      Except.ok (execute_task net clock url) := by
  unfold execute_task_caught execute_task
  cases execute_task_try net clock url <;> rfl

/-- C6: the gate slot is held only for the duration of one task and is
released on every exit path — the gate-event trace of every
`execute_task` call is exactly one acquire followed by one release. -/
theorem execute_task_gate_discipline (net : Net) (clock : Clock)
    (url : String) :
    execute_task_gate_trace net clock url =
      [GateEvent.acquire, GateEvent.release] ∧
    (execute_task_gate_trace net clock url).count GateEvent.acquire = 1 ∧
    (execute_task_gate_trace net clock url).count GateEvent.release = 1 := by
  unfold execute_task_gate_trace
  cases execute_task_try net clock url <;> exact ⟨rfl, rfl, rfl⟩

/-- C9: in all three branches (SUCCESS, HTTP error, FAILED) the result
returned by `execute_task` carries the input URL in its `url` field. -/
theorem execute_task_url_field (net : Net) (clock : Clock)
    (url : String) :
    (execute_task net clock url).url = url := by
  rcases execute_task_cases net clock url with
    ⟨p, ts, h⟩ | ⟨c, b, _, _, h⟩ | ⟨e, h⟩ <;> rw [h] <;> rfl

/-- C3 as stated is false: the body `5` is JSON-decodable, but on a 200
response `len(data)` raises `TypeError` inside `_process_logic`, so the
task yields FAILED rather than SUCCESS. -/
theorem execute_task_classification_counterexample :
    (execute_task
        (fun _ => FetchOutcome.resp 200 (BodyDecode.ok (Json.num 5)))
        ⟨"2024-01-01 00:00:00", "2024-01-01T00:00:00"⟩
        "https://scalar.example").status = "FAILED" ∧
    ¬ ((execute_task
        (fun _ => FetchOutcome.resp 200 (BodyDecode.ok (Json.num 5)))
        ⟨"2024-01-01 00:00:00", "2024-01-01T00:00:00"⟩
        "https://scalar.example").status = "SUCCESS") :=
  ⟨rfl, by decide⟩

/-- C3 (amended): a 200 response whose body decodes to a JSON mapping
yields SUCCESS with `payload.origin_count` equal to the number of
top-level entries of the decoded body and a timestamp; a non-200 status
yields a result with status `HTTP_<code>` and no payload. -/
theorem execute_task_classification (net : Net) (clock : Clock)
    (url : String) :
    (∀ kvs : List (String × Json),
        net url = FetchOutcome.resp 200 (BodyDecode.ok (Json.obj kvs)) →
        execute_task net clock url =
          ⟨"SUCCESS", url,
           some ⟨kvs.length, "STF-V1-PRO", clock.iso, true⟩,
           some clock.fmt, none⟩) ∧
    (∀ (code : Nat) (body : BodyDecode), code ≠ 200 →
        net url = FetchOutcome.resp code body →
        execute_task net clock url =
          ⟨"HTTP_" ++ toString code, url, none, none, none⟩) := by
  constructor
  · intro kvs h
    simp [execute_task, execute_task_try, process_logic, pyLen, h]
  · intro code body hne h
    simp [execute_task, execute_task_try, h, hne]

/-- Witness for C3: a 200 response with body `\x7b"x":1,"y":2\x7d` gives
SUCCESS with `origin_count = 2`; a 404 response gives `HTTP_404`. -/
theorem execute_task_classification_witness :
    execute_task
        (fun _ => FetchOutcome.resp 200
          (BodyDecode.ok (Json.obj [("x", Json.num 1), ("y", Json.num 2)])))
        ⟨"2024-01-01 00:00:00", "2024-01-01T00:00:00"⟩
        "https://ok.example/a" =
      ⟨"SUCCESS", "https://ok.example/a",
       some ⟨2, "STF-V1-PRO", "2024-01-01T00:00:00", true⟩,
       some "2024-01-01 00:00:00", none⟩ ∧
    execute_task
        (fun _ => FetchOutcome.resp 404 (BodyDecode.fail "not json"))
        ⟨"2024-01-01 00:00:00", "2024-01-01T00:00:00"⟩
        "https://missing.example/b" =
      ⟨"HTTP_404", "https://missing.example/b", none, none, none⟩ := by
  constructor
  · exact (execute_task_classification _ _ _).1
      [("x", Json.num 1), ("y", Json.num 2)] rfl
  · exact (execute_task_classification _ _ _).2
      404 (BodyDecode.fail "not json") (by decide) rfl

/-- C10: the status of every result is exactly one of `SUCCESS`,
`FAILED`, or `HTTP_` followed by the response's status code; payload and
timestamp are present only on SUCCESS. -/
theorem execute_task_status_partition (net : Net) (clock : Clock)
    (url : String) :
    ((execute_task net clock url).status = "SUCCESS" ∨
     (execute_task net clock url).status = "FAILED" ∨
     (∃ code body, net url = FetchOutcome.resp code body ∧ code ≠ 200 ∧
        (execute_task net clock url).status = "HTTP_" ++ toString code)) ∧
    (¬ ((execute_task net clock url).status = "SUCCESS" ∧
        (execute_task net clock url).status = "FAILED")) ∧
    (∀ code : Nat, ¬ ((execute_task net clock url).status = "SUCCESS" ∧
        (execute_task net clock url).status = "HTTP_" ++ toString code)) ∧
    (∀ code : Nat, ¬ ((execute_task net clock url).status = "FAILED" ∧
        (execute_task net clock url).status = "HTTP_" ++ toString code)) ∧
    ((execute_task net clock url).payload ≠ none →
        (execute_task net clock url).status = "SUCCESS") ∧
    ((execute_task net clock url).timestamp ≠ none →
        (execute_task net clock url).status = "SUCCESS") := by
  refine ⟨?_, ?_, ?_, ?_, ?_, ?_⟩
  · rcases execute_task_cases net clock url with
      ⟨p, ts, h⟩ | ⟨c, b, hnet, hne, h⟩ | ⟨e, h⟩
    · left; rw [h]
    · right; right; exact ⟨c, b, hnet, hne, by rw [h]⟩
    · right; left; rw [h]; rfl
  · rintro ⟨h1, h2⟩
    rw [h1] at h2
    exact absurd h2 (by decide)
  · rintro c ⟨h1, h2⟩
    rw [h1] at h2
    exact http_status_ne_success c h2.symm
  · rintro c ⟨h1, h2⟩
    rw [h1] at h2
    exact http_status_ne_failed c h2.symm
  · rcases execute_task_cases net clock url with
      ⟨p, ts, h⟩ | ⟨c, b, hnet, hne, h⟩ | ⟨e, h⟩ <;> rw [h]
    · intro _; rfl
    · intro hx; exact absurd rfl hx
    · intro hx; exact absurd rfl hx
  · rcases execute_task_cases net clock url with
      ⟨p, ts, h⟩ | ⟨c, b, hnet, hne, h⟩ | ⟨e, h⟩ <;> rw [h]
    · intro _; rfl
    · intro hx; exact absurd rfl hx
    · intro hx; exact absurd rfl hx

/-- Witness for C10: on a 200 response with an empty JSON mapping the
payload is present and the status is indeed `SUCCESS`. -/
theorem execute_task_status_partition_witness :
    (execute_task
        (fun _ => FetchOutcome.resp 200 (BodyDecode.ok (Json.obj [])))
        ⟨"2024-01-01 00:00:00", "2024-01-01T00:00:00"⟩
        "https://ok.example/a").status = "SUCCESS" :=
  (execute_task_status_partition _ _ _).2.2.2.2.1 (by decide)

/-- C7 as stated is false: the reason string is `str(e)` of the raised
exception, and a bare `TimeoutError()` stringifies to the empty string,
so the FAILED result of a timed-out task can carry an empty reason. -/
theorem execute_task_failed_counterexample :
    ¬ (((execute_task (fun _ => FetchOutcome.exn "")
          ⟨"2024-01-01 00:00:00", "2024-01-01T00:00:00"⟩
          "https://slow.example/c").status = "FAILED") ∧
       (∃ r, r ≠ "" ∧
          (execute_task (fun _ => FetchOutcome.exn "")
            ⟨"2024-01-01 00:00:00", "2024-01-01T00:00:00"⟩
            "https://slow.example/c").error = some r) ∧
       ((execute_task (fun _ => FetchOutcome.exn "")
          ⟨"2024-01-01 00:00:00", "2024-01-01T00:00:00"⟩
          "https://slow.example/c").payload = none)) := by
  rintro ⟨-, ⟨r, hr, he⟩, -⟩
  have h0 : (execute_task (fun _ => FetchOutcome.exn "")
      ⟨"2024-01-01 00:00:00", "2024-01-01T00:00:00"⟩
      "https://slow.example/c").error = some "" := rfl
  rw [h0] at he
  exact hr (Option.some.inj he).symm

/-- C7 (amended): every failure during request/decode yields a result
with status FAILED, reason equal to the exception's `str(e)` message
(which may be empty, as for a bare timeout), and no payload. -/
theorem execute_task_failed_amended (net : Net) (clock : Clock)
    (url msg : String)
    (h : execute_task_try net clock url = Except.error msg) :
    execute_task net clock url = ⟨"FAILED", url, none, none, some msg⟩ := by
  unfold execute_task
  rw [h]
  rfl

/-- Witness for the amended C7: a connection timeout with message
`Connection timeout` yields the corresponding FAILED result. -/
theorem execute_task_failed_amended_witness :
    execute_task (fun _ => FetchOutcome.exn "Connection timeout")
        ⟨"2024-01-01 00:00:00", "2024-01-01T00:00:00"⟩
        "https://slow.example/c" =
      ⟨"FAILED", "https://slow.example/c", none, none,
       some "Connection timeout"⟩ :=
  execute_task_failed_amended _ _ _ _ rfl

/-! ## Claims about the pipeline fan-in -/

/-- Writing completion events never changes the length of the gather
buffer. -/
theorem gatherFill_length (compute : Nat → TaskResult) (order : List Nat)
    (acc : List (Option TaskResult)) :
    (gatherFill compute order acc).length = acc.length := by
  induction order generalizing acc with
  | nil => rfl
  | cons i order ih =>
      rw [show gatherFill compute (i :: order) acc =
            gatherFill compute order (acc.set i (some (compute i))) from rfl,
          ih, List.length_set]

/-- Slot `j` of the gather buffer after processing the completion events
in `order`: task `j`'s own result if `j` completed, untouched otherwise. -/
theorem gatherFill_getElem? (compute : Nat → TaskResult) (order : List Nat)
    (acc : List (Option TaskResult)) (j : Nat) (hj : j < acc.length) :
    (gatherFill compute order acc)[j]? =
      if j ∈ order then some (some (compute j)) else acc[j]? := by
  induction order generalizing acc with
  | nil => simp [gatherFill]
  | cons i order ih =>
      rw [show gatherFill compute (i :: order) acc =
            gatherFill compute order (acc.set i (some (compute i))) from rfl]
      have hj' : j < (acc.set i (some (compute i))).length := by
        rwa [List.length_set]
      rw [ih (acc.set i (some (compute i))) hj']
      by_cases hmem : j ∈ order
      · simp [hmem]
      · by_cases hij : j = i
        · subst hij
          simp [hmem, List.getElem?_set_self hj]
        · rw [List.getElem?_set_ne (Ne.symm hij)]
          simp [hmem, hij]

/-- The gather buffer of an empty target list stays empty. -/
theorem gatherFill_nil (compute : Nat → TaskResult) (order : List Nat) :
    gatherFill compute order [] = [] := by
  induction order with
  | nil => rfl
  | cons i order ih =>
      rw [show gatherFill compute (i :: order) [] =
            gatherFill compute order ([].set i (some (compute i))) from rfl,
          List.set_nil, ih]

/-- C1: whenever every task index completes, `run_pipeline` returns the
results in the same order as the input targets — the i-th slot holds the
i-th target's result — independent of the completion order. -/
theorem run_pipeline_order_preservation (net : Net) (clock : Clock)
    (targets : List String) (order : List Nat)
    (hcover : ∀ i ∈ List.range targets.length, i ∈ order) :
    run_pipeline net clock targets order =
      targets.map (fun u => some (execute_task net clock u)) := by
  apply List.ext_getElem?
  intro j
  by_cases hj : j < targets.length
  · have hj' : j < (List.replicate targets.length
        (none : Option TaskResult)).length := by
      rwa [List.length_replicate]
    rw [run_pipeline, gatherFill_getElem? _ _ _ _ hj',
        if_pos (hcover j (List.mem_range.mpr hj))]
    have hgd : targets.getD j "" = targets[j] := by
      simp [List.getD_eq_getElem?_getD, List.getElem?_eq_getElem hj]
    have htask : taskOf net clock targets j =
        execute_task net clock targets[j] := by
      unfold taskOf
      rw [hgd]
    rw [htask, List.getElem?_map, List.getElem?_eq_getElem hj]
    rfl
  · have h1 : (run_pipeline net clock targets order)[j]? = none := by
      apply List.getElem?_eq_none
      rw [run_pipeline, gatherFill_length, List.length_replicate]
      omega
    have h2 : (targets.map
        (fun u => some (execute_task net clock u)))[j]? = none := by
      apply List.getElem?_eq_none
      rw [List.length_map]
      omega
    rw [h1, h2]

/-- Witness for C1: two targets, completion order reversed, the result
list still follows the input order. -/
theorem run_pipeline_order_preservation_witness :
    run_pipeline (fun _ => FetchOutcome.exn "boom")
        ⟨"2024-01-01 00:00:00", "2024-01-01T00:00:00"⟩
        ["https://a.example", "https://b.example"] [1, 0] =
      (["https://a.example", "https://b.example"].map
        (fun u => some (execute_task (fun _ => FetchOutcome.exn "boom")
          ⟨"2024-01-01 00:00:00", "2024-01-01T00:00:00"⟩ u))) :=
  run_pipeline_order_preservation _ _ _ _ (by decide)

/-- C2: whenever every task index completes, the number of results
equals the number of targets, slot `i` holds exactly the result of
target `i` (no duplicates, no omissions), and the empty input yields the
empty result list. -/
theorem run_pipeline_total_coverage (net : Net) (clock : Clock)
    (targets : List String) (order : List Nat)
    (hcover : ∀ i ∈ List.range targets.length, i ∈ order) :
    (run_pipeline net clock targets order).length = targets.length ∧
    (∀ i ∈ List.range targets.length,
        (run_pipeline net clock targets order)[i]? =
          some (some (execute_task net clock (targets.getD i "")))) ∧
    run_pipeline net clock [] order = [] := by
  refine ⟨?_, ?_, ?_⟩
  · rw [run_pipeline, gatherFill_length, List.length_replicate]
  · intro i hi
    have hi' : i < (List.replicate targets.length
        (none : Option TaskResult)).length := by
      rw [List.length_replicate]
      exact List.mem_range.mp hi
    rw [run_pipeline, gatherFill_getElem? _ _ _ _ hi',
        if_pos (hcover i hi)]
    rfl
  · rw [run_pipeline]
    exact gatherFill_nil _ _

/-- Witness for C2: two targets, completion order reversed, two results,
each slot holding its own target's result. -/
theorem run_pipeline_total_coverage_witness :
    (run_pipeline (fun _ => FetchOutcome.exn "boom")
        ⟨"2024-01-01 00:00:00", "2024-01-01T00:00:00"⟩
        ["https://a.example", "https://b.example"] [1, 0]).length = 2 ∧
    (run_pipeline (fun _ => FetchOutcome.exn "boom")
        ⟨"2024-01-01 00:00:00", "2024-01-01T00:00:00"⟩
        ["https://a.example", "https://b.example"] [1, 0])[0]? =
      some (some (execute_task (fun _ => FetchOutcome.exn "boom")
        ⟨"2024-01-01 00:00:00", "2024-01-01T00:00:00"⟩
        "https://a.example")) := by
  have h := run_pipeline_total_coverage (fun _ => FetchOutcome.exn "boom")
    ⟨"2024-01-01 00:00:00", "2024-01-01T00:00:00"⟩
    ["https://a.example", "https://b.example"] [1, 0] (by decide)
  exact ⟨h.1, h.2.1 0 (by decide)⟩

/-! ## Claims about the concurrency gate -/

/-- Admitting a pending task raises the holding count by one. -/
theorem countP_set_pending_to_holding (l : List Phase) (i : Nat)
    (h : l[i]? = some Phase.pending) :
    (l.set i Phase.holding).countP (fun p => p == Phase.holding) =
      l.countP (fun p => p == Phase.holding) + 1 := by
  induction l generalizing i with
  | nil => simp at h
  | cons a l ih =>
      cases i with
      | zero =>
          rw [List.getElem?_cons_zero] at h
          have ha : a = Phase.pending := Option.some.inj h
          subst ha
          rw [List.set_cons_zero, List.countP_cons, List.countP_cons]
          simp [show (Phase.holding == Phase.holding) = true from rfl,
                show (Phase.pending == Phase.holding) = false from rfl]
      | succ i =>
          rw [List.getElem?_cons_succ] at h
          rw [List.set_cons_succ, List.countP_cons, List.countP_cons,
              ih i h]
          ring

/-- Releasing a holding task lowers the holding count by one. -/
theorem countP_set_holding_to_done (l : List Phase) (i : Nat)
    (h : l[i]? = some Phase.holding) :
    (l.set i Phase.done).countP (fun p => p == Phase.holding) + 1 =
      l.countP (fun p => p == Phase.holding) := by
  induction l generalizing i with
  | nil => simp at h
  | cons a l ih =>
      cases i with
      | zero =>
          rw [List.getElem?_cons_zero] at h
          have ha : a = Phase.holding := Option.some.inj h
          subst ha
          rw [List.set_cons_zero, List.countP_cons, List.countP_cons]
          simp [show (Phase.holding == Phase.holding) = true from rfl,
                show (Phase.done == Phase.holding) = false from rfl]
      | succ i =>
          rw [List.getElem?_cons_succ] at h
          rw [List.set_cons_succ, List.countP_cons, List.countP_cons,
              ← ih i h]
          ring

/-- Gate invariant: in every reachable state the available permits plus
the tasks holding the gate equal the configured capacity. -/
theorem sched_permits_invariant (C n : Nat) (s : SchedState)
    (h : Reachable C n s) :
    s.permits + holdingCount s = C := by
  induction h with
  | refl =>
      rw [initState, holdingCount]
      simp [List.countP_replicate,
            show (Phase.pending == Phase.holding) = false from rfl]
  | tail hab hstep ih =>
      cases hstep with
      | acquire i hi hp =>
          have hcount := countP_set_pending_to_holding _ i hi
          simp only [holdingCount] at ih ⊢
          omega
      | release i hi =>
          have hcount := countP_set_holding_to_done _ i hi
          simp only [holdingCount] at ih ⊢
          omega

/-- C5: in a run with concurrency limit `C` and `n > C` targets, no
reachable state has more than `C` tasks simultaneously holding the
gate. -/
theorem sched_admission_bound (C n : Nat) (s : SchedState)
    (hn : C < n) (hs : Reachable C n s) :
    holdingCount s ≤ C := by
  have h := sched_permits_invariant C n s hs
  omega

/-- Witness for C5: capacity 1, two tasks, after task 0 acquires the
gate exactly one task holds it, which is within the bound. -/
theorem sched_admission_bound_witness :
    holdingCount ⟨(initState 1 2).permits - 1,
      (initState 1 2).phases.set 0 Phase.holding⟩ ≤ 1 :=
  sched_admission_bound 1 2 _ (by decide)
    (Relation.ReflTransGen.single
      (SchedStep.acquire (initState 1 2) 0 rfl (by decide)))

/-! ## Claims about engine construction -/

/-- C8 as stated is false: `concurrency_limit = 0` is below 1, yet the
constructor neither rejects it nor clamps it — `asyncio.Semaphore(0)`
is accepted unchanged, yielding a gate that never admits a task. -/
theorem engineInit_counterexample :
    ¬ ((engineInit 0 0).isOk = false ∨
       (∃ e : DataStreamEngine, engineInit 0 0 = Except.ok e ∧
          1 ≤ e.semaphore.value)) := by
  rintro (h | ⟨e, he, hv⟩)
  · exact absurd h (by decide)
  · have h0 : engineInit 0 0 = Except.ok ⟨⟨0⟩, 0⟩ := rfl
    rw [h0] at he
    cases Except.ok.inj he
    exact absurd hv (by decide)

/-- C8 (amended): a negative `concurrency_limit` is rejected by the
semaphore constructor; any value `≥ 0` — including 0 — is accepted
unchanged (no clamping); the default when none is supplied is 10. -/
theorem engineInit_amended (now v : Int) :
    (v < 0 → (engineInit now v).isOk = false) ∧
    (0 ≤ v → engineInit now v = Except.ok ⟨⟨v.toNat⟩, now⟩) ∧
    engineInitDefault now = Except.ok ⟨⟨10⟩, now⟩ := by
  refine ⟨?_, ?_, rfl⟩
  · intro hv
    rw [engineInit, mkSemaphore, if_pos hv]
    rfl
  · intro hv
    rw [engineInit, mkSemaphore, if_neg (by omega)]

/-- Witness for the amended C8: `-1` is rejected, `5` and the default
are accepted unchanged. -/
theorem engineInit_amended_witness :
    (engineInit 0 (-1)).isOk = false ∧
    engineInit 0 5 = Except.ok ⟨⟨5⟩, 0⟩ ∧
    engineInitDefault 0 = Except.ok ⟨⟨10⟩, 0⟩ :=
  ⟨(engineInit_amended 0 (-1)).1 (by decide),
   (engineInit_amended 0 5).2.1 (by decide),
   (engineInit_amended 0 0).2.2⟩

end AsyncEngine
